import Mathlib

set_option maxRecDepth 8192

/-! Shallow embedding of the interface resource-generation module
(sysinv/puppet/interface.py).  Python dictionaries are modelled as
association lists, mirroring dict insertion-order and overwrite
semantics; recursive graph traversals take an explicit fuel argument
bounding the recursion depth (the source relies on the uses/used_by
graph being acyclic).  Lookups that would raise KeyError in Python on
malformed input fall back to a neutral value here; every theorem below
is stated on inputs where those fallbacks are unreachable. -/

/-- Association-list lookup, mirroring Python dict access. -/
def alookup {κ α : Type} [DecidableEq κ] : List (κ × α) → κ → Option α
  | [], _ => none
  | (k, v) :: t, key => if k = key then some v else alookup t key

/-- Association-list insert or overwrite, mirroring Python dict assignment:
an existing key keeps its position, a new key is appended at the end. -/
def aset {κ α : Type} [DecidableEq κ] : List (κ × α) → κ → α → List (κ × α)
  | [], key, v => [(key, v)]
  | (k, w) :: t, key, v => if k = key then (key, v) :: t else (k, w) :: aset t key v

/-- Association-list removal, mirroring Python del d[k].  Dict keys are
unique, so removing every binding of the key coincides with del. -/
def aerase {κ α : Type} [DecidableEq κ] (l : List (κ × α)) (key : κ) : List (κ × α) :=
  l.filter (fun p => decide (p.1 ≠ key))

/-! Data model: entity records as retrieved for one host (see spec section 3).
Field names follow the source; the Python field name prefix (a route or
address prefix length) is spelled prefixLen here. -/

structure Port where
  name : String
  driver : String
  dpdksupport : Bool
  pciaddr : String
  deriving DecidableEq

structure Interface where
  id : Nat
  ifname : String
  iftype : String
  /-- Primary network type (None in the source when unset).
  Modelled from the spec: utils.get_primary_network_type is not under src;
  the spec data model gives each interface a primary network type plus
  auxiliary network types. -/
  networktype : Option String
  /-- Auxiliary (non-primary) network types.
  Modelled from the spec: utils.get_network_type_list is not under src;
  the full network type list is the primary type followed by these. -/
  auxtypes : List String
  imtu : Nat
  vlan_id : Nat
  aemode : String
  txhashpolicy : String
  imac : String
  sriov_numvfs : Nat
  uses : List String
  used_by : List String
  deriving DecidableEq

structure Address where
  ifname : String
  family : Nat
  prefixLen : Nat
  address : String
  networktype : Option String
  netmask : String := ""
  deriving DecidableEq

structure Route where
  ifname : String
  network : String
  prefixLen : Nat
  gateway : String
  metric : Nat
  deriving DecidableEq

structure Network where
  ntype : String
  mtu : Nat
  vlan_id : Nat
  link_capacity : Nat
  deriving DecidableEq

/-- Normalized per-host resolution context (source: _create_interface_context). -/
structure Context where
  hostname : String
  personality : String
  subfunctions : List String
  ports : List (Nat × Port)
  interfaces : List (String × Interface)
  addresses : List (String × List Address)
  routes : List (String × List Route)
  networks : List (String × Network)
  gateways : List (String × String)
  floatingips : List (String × String)
  providernets : List String := []
  deriving DecidableEq

/-! Module-level constants (values of the sysinv constants module, which is
not under src; the string values follow the spec glossary and do not affect
any claim as long as they are pairwise distinct). -/

def NETWORK_TYPE_PXEBOOT : String := "pxeboot"
def NETWORK_TYPE_MGMT : String := "mgmt"
def NETWORK_TYPE_INFRA : String := "infra"
def NETWORK_TYPE_OAM : String := "oam"
def NETWORK_TYPE_DATA : String := "data"
def NETWORK_TYPE_DATA_VRS : String := "data-vrs"
def NETWORK_TYPE_BM : String := "bm"
def NETWORK_TYPE_CONTROL : String := "control"
def NETWORK_TYPE_PCI_SRIOV : String := "pci-sriov"
def NETWORK_TYPE_PCI_PASSTHROUGH : String := "pci-passthrough"
def PERSONALITY_CONTROLLER : String := "controller"
def PERSONALITY_COMPUTE : String := "compute"
def INTERFACE_TYPE_ETHERNET : String := "ethernet"
def INTERFACE_TYPE_AE : String := "ae"
def INTERFACE_TYPE_VLAN : String := "vlan"

def PLATFORM_NETWORK_TYPES : List String :=
  [NETWORK_TYPE_PXEBOOT, NETWORK_TYPE_MGMT, NETWORK_TYPE_INFRA, NETWORK_TYPE_OAM,
   NETWORK_TYPE_DATA_VRS, NETWORK_TYPE_BM, NETWORK_TYPE_CONTROL]

def DATA_NETWORK_TYPES : List String := [NETWORK_TYPE_DATA]

def PCI_NETWORK_TYPES : List String :=
  [NETWORK_TYPE_PCI_SRIOV, NETWORK_TYPE_PCI_PASSTHROUGH]

def ACTIVE_STANDBY_AE_MODES : List String := ["active_backup", "active-backup", "active_standby"]
def BALANCED_AE_MODES : List String := ["balanced", "balanced-xor"]
def LACP_AE_MODES : List String := ["802.3ad"]

def DRIVER_MLX_CX3 : String := "mlx4_core"
def DRIVER_MLX_CX4 : String := "mlx5_core"
def MELLANOX_DRIVERS : List String := [DRIVER_MLX_CX3, DRIVER_MLX_CX4]

def LOOPBACK_IFNAME : String := "lo"
def LOOPBACK_METHOD : String := "loopback"

/-- Modelled from the spec: utils.get_primary_network_type is not under src.
Returns the interface's primary network type, if any. -/
def get_primary_network_type (iface : Interface) : Option String :=
  iface.networktype

/-- Modelled from the spec: utils.get_network_type_list is not under src.
Returns all assigned network types, primary first then auxiliaries. -/
def get_network_type_list (iface : Interface) : List String :=
  (match iface.networktype with
    | some t => [t]
    | none => []) ++ iface.auxtypes

/-- Source: is_platform_network_type. -/
def is_platform_network_type (iface : Interface) : Bool :=
  match get_primary_network_type iface with
  | some t => PLATFORM_NETWORK_TYPES.contains t
  | none => false

/-- Source: is_data_network_type. -/
def is_data_network_type (iface : Interface) : Bool :=
  (get_network_type_list iface).any (fun n => DATA_NETWORK_TYPES.contains n)

/-- Source: is_controller. -/
def is_controller (ctx : Context) : Bool :=
  ctx.personality = PERSONALITY_CONTROLLER

/-- Source: is_compute_subfunction. -/
def is_compute_subfunction (ctx : Context) : Bool :=
  ctx.personality = PERSONALITY_COMPUTE || ctx.subfunctions.contains PERSONALITY_COMPUTE

/-- Source: is_pci_interface. -/
def is_pci_interface (iface : Interface) : Bool :=
  match get_primary_network_type iface with
  | some t => PCI_NETWORK_TYPES.contains t
  | none => false

/-- Source: is_platform_interface, fuel-bounded recursion over used_by. -/
def is_platform_interface (ctx : Context) : Nat → Interface → Bool
  | 0, _ => false
  | fuel + 1, iface =>
    if is_platform_network_type iface then true
    else iface.used_by.any (fun un =>
      match alookup ctx.interfaces un with
      | some upper => is_platform_interface ctx fuel upper
      | none => false)

/-- Source: is_data_interface, fuel-bounded recursion over used_by. -/
def is_data_interface (ctx : Context) : Nat → Interface → Bool
  | 0, _ => false
  | fuel + 1, iface =>
    if is_data_network_type iface then true
    else iface.used_by.any (fun un =>
      match alookup ctx.interfaces un with
      | some upper => is_data_interface ctx fuel upper
      | none => false)

/-- Source: get_interface_port (context ports indexed by interface id). -/
def get_interface_port (ctx : Context) (iface : Interface) : Option Port :=
  alookup ctx.ports iface.id

/-- Source: is_dpdk_compatible. -/
def is_dpdk_compatible (ctx : Context) (iface : Interface) : Bool :=
  if iface.iftype = INTERFACE_TYPE_ETHERNET then
    match get_interface_port ctx iface with
    | some port => port.dpdksupport
    | none => false
  else
    true

/-- Source: is_a_mellanox_device. -/
def is_a_mellanox_device (ctx : Context) (iface : Interface) : Bool :=
  if iface.iftype ≠ INTERFACE_TYPE_ETHERNET then false
  else
    match get_interface_port ctx iface with
    | some port => MELLANOX_DRIVERS.contains port.driver
    | none => false

/-- Source: is_a_mellanox_cx3_device. -/
def is_a_mellanox_cx3_device (ctx : Context) (iface : Interface) : Bool :=
  if iface.iftype ≠ INTERFACE_TYPE_ETHERNET then false
  else
    match get_interface_port ctx iface with
    | some port => port.driver = DRIVER_MLX_CX3
    | none => false

/-- Source: get_master_interface (first AE interface among used_by). -/
def get_master_interface (ctx : Context) (iface : Interface) : Option String :=
  if iface.iftype = INTERFACE_TYPE_ETHERNET then
    (iface.used_by.filterMap (fun un =>
      match alookup ctx.interfaces un with
      | some upper => if upper.iftype = INTERFACE_TYPE_AE then some upper.ifname else none
      | none => none)).head?
  else
    none

/-- Source: is_slave_interface. -/
def is_slave_interface (ctx : Context) (iface : Interface) : Bool :=
  (get_master_interface ctx iface).isSome

/-- Source: needs_interface_config.  The elif chain of the source is kept
verbatim: a data interface that is DPDK-compatible and not Mellanox falls
through to the final False without the PCI test being evaluated. -/
def needs_interface_config (ctx : Context) (fuel : Nat) (iface : Interface) : Bool :=
  if is_platform_interface ctx fuel iface then true
  else if ¬ is_compute_subfunction ctx then false
  else if is_data_interface ctx fuel iface then
    if ¬ is_dpdk_compatible ctx iface then true
    else if is_a_mellanox_device ctx iface then true
    else false
  else if is_pci_interface iface then true
  else false

/-- Source: get_interface_address_method. -/
def get_interface_address_method (ctx : Context) (iface : Interface) : String :=
  match get_primary_network_type iface with
  | none => "manual"
  | some networktype =>
    if DATA_NETWORK_TYPES.contains networktype then "manual"
    else if networktype = NETWORK_TYPE_CONTROL then "static"
    else if networktype = NETWORK_TYPE_DATA_VRS then "static"
    else if networktype = NETWORK_TYPE_BM then "static"
    else if PCI_NETWORK_TYPES.contains networktype then "manual"
    else if is_controller ctx then "static"
    else if networktype = NETWORK_TYPE_PXEBOOT then "manual"
    else "dhcp"

/-! Network config records: a Python dict from field name to either a string
value or the nested options dict (source: get_basic_network_config). -/

inductive CVal where
  | s (v : String)
  | o (m : List (String × String))
  deriving DecidableEq

abbrev NetCfg := List (String × CVal)

def cfgLookup (c : NetCfg) (k : String) : Option CVal :=
  alookup c k

def cfgSet (c : NetCfg) (k : String) (v : CVal) : NetCfg :=
  aset c k v

/-- String value of a config field, empty when absent or non-string. -/
def cfgGetStr (c : NetCfg) (k : String) : String :=
  match cfgLookup c k with
  | some (CVal.s v) => v
  | _ => ""

/-- Current options sub-dict of a config record. -/
def cfgOpts (c : NetCfg) : List (String × String) :=
  match cfgLookup c "options" with
  | some (CVal.o m) => m
  | _ => []

/-- Python dict.update on an options dict. -/
def optsUpdate (old new : List (String × String)) : List (String × String) :=
  new.foldl (fun acc kv => aset acc kv.1 kv.2) old

/-- Source pattern config options update(options). -/
def cfgUpdateOpts (c : NetCfg) (new : List (String × String)) : NetCfg :=
  cfgSet c "options" (CVal.o (optsUpdate (cfgOpts c) new))

/-- Dotted-decimal IPv4 netmask for a prefix length (netaddr IPNetwork
netmask rendering, IPv4 case). -/
def ipv4_netmask (p : Nat) : String :=
  let m : Nat := 2 ^ 32 - 2 ^ (32 - p)
  toString (m / 2 ^ 24 % 256) ++ "." ++ toString (m / 2 ^ 16 % 256) ++ "." ++
    toString (m / 2 ^ 8 % 256) ++ "." ++ toString (m % 256)

/-- Source: _set_address_netmask.  The IP version test of the source parses
the address string; here the record's IP family field (spec data model)
carries the same information. -/
def _set_address_netmask (a : Address) : Address :=
  if a.family = 6 then { a with netmask := toString a.prefixLen }
  else { a with netmask := ipv4_netmask a.prefixLen }

/-- Source: get_interface_primary_address. -/
def get_interface_primary_address (ctx : Context) (iface : Interface) : Option Address :=
  match (alookup ctx.addresses iface.ifname).getD [] with
  | [] => none
  | a :: _ => some (_set_address_netmask a)

/-- Source: get_interface_address_family (IP version via the family field). -/
def get_interface_address_family (ctx : Context) (iface : Interface) : String :=
  match get_interface_primary_address ctx iface with
  | none => "inet"
  | some a => if a.family = 4 then "inet" else "inet6"

/-- Source: get_interface_gateway_address. -/
def get_interface_gateway_address (ctx : Context) (iface : Interface) : Option String :=
  match get_primary_network_type iface with
  | some networktype => alookup ctx.gateways networktype
  | none => none

/-- Source: get_interface_mtu. -/
def get_interface_mtu (iface : Interface) : Nat :=
  iface.imtu

/-- Source: get_interface_port_name.  Well-formed contexts have a port for
every ethernet interface; the fallback is unreachable on such contexts. -/
def get_interface_port_name (ctx : Context) (iface : Interface) : String :=
  match get_interface_port ctx iface with
  | some port => port.name
  | none => iface.ifname

/-- Source: get_interface_os_ifname together with get_lower_interface and
get_lower_interface_os_ifname, fuel-bounded through stacked lowers. -/
def get_interface_os_ifname (ctx : Context) : Nat → Interface → String
  | 0, iface => iface.ifname
  | fuel + 1, iface =>
    if iface.iftype = INTERFACE_TYPE_ETHERNET then
      get_interface_port_name ctx iface
    else if iface.iftype = INTERFACE_TYPE_VLAN then
      match iface.uses with
      | lower_ifname :: _ =>
        (match alookup ctx.interfaces lower_ifname with
          | some lower =>
            get_interface_os_ifname ctx fuel lower ++ "." ++ toString iface.vlan_id
          | none => iface.ifname)
      | [] => iface.ifname
    else
      iface.ifname

/-- Source: get_interface_routes. -/
def get_interface_routes (ctx : Context) (iface : Interface) : List Route :=
  (alookup ctx.routes iface.ifname).getD []

/-- Source: get_network_speed. -/
def get_network_speed (ctx : Context) (networktype : String) : Nat :=
  match alookup ctx.networks networktype with
  | some network => network.link_capacity
  | none => 0

/-- Source: get_interface_traffic_classifier. -/
def get_interface_traffic_classifier (ctx : Context) (fuel : Nat) (iface : Interface) :
    Option String :=
  match get_primary_network_type iface with
  | some networktype =>
    if networktype = NETWORK_TYPE_MGMT ∨ networktype = NETWORK_TYPE_INFRA then
      some ("/usr/local/bin/cgcs_tc_setup.sh " ++ get_interface_os_ifname ctx fuel iface ++
        " " ++ networktype ++ " " ++ toString (get_network_speed ctx networktype) ++
        " > /dev/null")
    else none
  | none => none

/-- Source: get_bridge_interface_name. -/
def get_bridge_interface_name (ctx : Context) (fuel : Nat) (iface : Interface) :
    Option String :=
  if iface.iftype = INTERFACE_TYPE_ETHERNET ∧
      is_data_interface ctx fuel iface ∧ ¬ is_dpdk_compatible ctx iface then
    some ("br-" ++ get_interface_os_ifname ctx fuel iface)
  else
    none

/-- Source: is_bridged_interface. -/
def is_bridged_interface (ctx : Context) (fuel : Nat) (iface : Interface) : Bool :=
  (get_bridge_interface_name ctx fuel iface).isSome

/-- Source: get_basic_network_config (field insertion order of the dict
literal is preserved). -/
def get_basic_network_config (ifname : String) (ensure : String := "present")
    (method : String := "manual") (onboot : String := "true")
    (hotplug : String := "false") (family : String := "inet")
    (mtu : Option Nat := none) : NetCfg :=
  let config : NetCfg :=
    [("ifname", CVal.s ifname), ("ensure", CVal.s ensure), ("family", CVal.s family),
     ("method", CVal.s method), ("hotplug", CVal.s hotplug), ("onboot", CVal.s onboot),
     ("options", CVal.o [])]
  match mtu with
  | some m => if m ≠ 0 then cfgSet config "mtu" (CVal.s (toString m)) else config
  | none => config

/-- Source: get_vlan_network_config. -/
def get_vlan_network_config (config : NetCfg) : NetCfg :=
  cfgUpdateOpts config [("VLAN", "yes"), ("pre_up", "/sbin/modprobe -q 8021q")]

/-- Source: get_bond_interface_options. -/
def get_bond_interface_options (iface : Interface) : String :=
  if ACTIVE_STANDBY_AE_MODES.contains iface.aemode then
    "mode=active-backup miimon=100"
  else
    let options := "xmit_hash_policy=" ++ iface.txhashpolicy ++ " miimon=100"
    if BALANCED_AE_MODES.contains iface.aemode then "mode=balance-xor " ++ options
    else if LACP_AE_MODES.contains iface.aemode then
      "mode=802.3ad lacp_rate=fast " ++ options
    else options

/-- Python str.rstrip with no argument: drop trailing whitespace. -/
def rstripStr (s : String) : String :=
  String.mk ((s.toList.reverse.dropWhile Char.isWhitespace).reverse)

/-- Source: get_bond_network_config. -/
def get_bond_network_config (iface : Interface) (config : NetCfg) : NetCfg :=
  let bonding_options := get_bond_interface_options iface
  let options :=
    [("MACADDR", rstripStr iface.imac)] ++
      (if bonding_options ≠ "" then
        [("BONDING_OPTS", bonding_options), ("up", "sleep 10")]
      else [])
  cfgUpdateOpts config options

/-- Source: get_ethernet_network_config. -/
def get_ethernet_network_config (ctx : Context) (fuel : Nat) (iface : Interface)
    (config : NetCfg) : NetCfg :=
  let networktype := get_primary_network_type iface
  let base : List (String × String) := [("LINKDELAY", "20")]
  let options :=
    if is_bridged_interface ctx fuel iface then
      base ++ [("BRIDGE", (get_bridge_interface_name ctx fuel iface).getD "")]
    else if is_slave_interface ctx iface then
      base ++ [("SLAVE", "yes"), ("MASTER", (get_master_interface ctx iface).getD ""),
        ("PROMISC", "yes")]
    else if networktype = some NETWORK_TYPE_PCI_SRIOV then
      if ¬ is_a_mellanox_cx3_device ctx iface then
        let sriovfs_path :=
          "/sys/class/net/" ++ get_interface_port_name ctx iface ++ "/device/sriov_numvfs"
        base ++ [("pre_up",
          "echo 0 > " ++ sriovfs_path ++ "; echo " ++ toString iface.sriov_numvfs ++
            " > " ++ sriovfs_path)]
      else base
    else if networktype = some NETWORK_TYPE_PCI_PASSTHROUGH then
      let sriovfs_path :=
        "/sys/class/net/" ++ get_interface_port_name ctx iface ++ "/device/sriov_numvfs"
      base ++ [("pre_up",
        "if [ -f  " ++ sriovfs_path ++ " ]; then echo 0 > " ++ sriovfs_path ++ "; fi")]
    else base
  cfgUpdateOpts config options

/-- Route resource record (source: get_route_config result dict). -/
structure RouteConfig where
  name : String
  ensure : String
  gateway : String
  interface : String
  netmask : String
  network : String
  options : String
  deriving DecidableEq

/-- Source: get_route_config.  The netmask string is rendered for IPv4
routes (the netaddr rendering for IPv6 route netmasks is not modelled; no
claim depends on it, and the zero-prefix branch uses the literal below). -/
def get_route_config (route : Route) (ifname : String) : RouteConfig :=
  { name :=
      if route.prefixLen ≠ 0 then route.network ++ "/" ++ toString route.prefixLen
      else "default"
    ensure := "present"
    gateway := route.gateway
    interface := ifname
    netmask := if route.prefixLen ≠ 0 then ipv4_netmask route.prefixLen else "0.0.0.0"
    network := if route.prefixLen ≠ 0 then route.network else "default"
    options := "metric " ++ toString route.metric }

/-- Source: get_common_network_config.  The failed assertion on a missing
static address is modelled as an error result. -/
def get_common_network_config (ctx : Context) (fuel : Nat) (iface : Interface)
    (config : NetCfg) : Except String NetCfg :=
  let config :=
    match get_interface_traffic_classifier ctx fuel iface with
    | some traffic_classifier => cfgUpdateOpts config [("post_up", traffic_classifier)]
    | none => config
  if get_interface_address_method ctx iface = "static" then
    match get_interface_primary_address ctx iface with
    | none =>
      if get_primary_network_type iface = some NETWORK_TYPE_CONTROL then
        Except.ok config
      else
        Except.error ("Interface " ++ iface.ifname ++ " has no primary address")
    | some address =>
      let config := cfgSet config "ipaddress" (CVal.s address.address)
      let config := cfgSet config "netmask" (CVal.s address.netmask)
      match get_interface_gateway_address ctx iface with
      | some gateway => Except.ok (cfgSet config "gateway" (CVal.s gateway))
      | none => Except.ok config
  else
    Except.ok config

/-- Source: get_interface_network_config. -/
def get_interface_network_config (ctx : Context) (fuel : Nat) (iface : Interface) :
    Except String NetCfg := do
  let os_ifname := get_interface_os_ifname ctx fuel iface
  let method := get_interface_address_method ctx iface
  let family := get_interface_address_family ctx iface
  let mtu := get_interface_mtu iface
  let config := get_basic_network_config os_ifname "present" method "true" "false" family
    (some mtu)
  let config ← get_common_network_config ctx fuel iface config
  if iface.iftype = INTERFACE_TYPE_VLAN then
    return get_vlan_network_config config
  else if iface.iftype = INTERFACE_TYPE_AE then
    return get_bond_network_config iface config
  else
    return get_ethernet_network_config ctx fuel iface config

/-- Source: get_bridge_network_config. -/
def get_bridge_network_config (ctx : Context) (fuel : Nat) (iface : Interface) : NetCfg :=
  let os_ifname := "br-" ++ get_interface_os_ifname ctx fuel iface
  let method := get_interface_address_method ctx iface
  let family := get_interface_address_family ctx iface
  let config := get_basic_network_config os_ifname "present" method "true" "false" family none
  cfgUpdateOpts config [("TYPE", "Bridge")]

/-- Source: get_bridged_network_config. -/
def get_bridged_network_config (ctx : Context) (fuel : Nat) (iface : Interface) :
    Except String (NetCfg × NetCfg) := do
  let avp_config ← get_interface_network_config ctx fuel iface
  let avp_config := cfgSet avp_config "ifname" (CVal.s (cfgGetStr avp_config "ifname" ++ "-avp"))
  let bridge_config := get_bridge_network_config ctx fuel iface
  return (avp_config, bridge_config)

/-! Orchestrator: index builders, synthetic BMC injection and the host
resolution pipeline (source: InterfacePuppet.get_host_config and the
generate_* module functions). -/

/-- Final resource map (source: the config dict of get_host_config with the
three resource families, plus the scalar keys set by the driver and DHCP
generators). -/
structure HostConfig where
  network_config : List (String × NetCfg)
  route_config : List (String × RouteConfig)
  address_config : List (String × (String × String))
  extra : List (String × String)
  deriving DecidableEq

/-- Raw topology snapshot of one host: the entity rows the context builder
reads from the persistence layer, plus the host and system attributes that
get_host_config consults. -/
structure Snapshot where
  hostname : String
  personality : String
  subfunctions : List String
  ports : List (Nat × Port)
  interfaces : List (String × Interface)
  rawAddresses : List Address
  rawRoutes : List Route
  networks : List (String × Network)
  gateways : List (String × String)
  floatingips : List (String × String)
  system_mode : String
  distributed_cloud_role : String
  bmNetwork : Option Network
  bmcAddress : Option Address
  deriving DecidableEq

/-- Source: _get_address_interface_name_index (defaultdict append grouping). -/
def _get_address_interface_name_index (addrs : List Address) :
    List (String × List Address) :=
  addrs.foldl (fun acc a => aset acc a.ifname ((alookup acc a.ifname).getD [] ++ [a])) []

/-- Comparison used by the route index: python sorted with key prefix and
reverse=True orders by descending prefix length, stably. -/
def routeDescLe (a b : Route) : Prop :=
  b.prefixLen ≤ a.prefixLen

instance : DecidableRel routeDescLe := fun a b => by
  unfold routeDescLe; infer_instance

instance : IsTotal Route routeDescLe :=
  ⟨fun a b => le_total b.prefixLen a.prefixLen⟩

instance : IsTrans Route routeDescLe :=
  ⟨fun _ _ _ hab hbc => le_trans hbc hab⟩

/-- Sort step of _get_routes_interface_name_index (a stable sort, as python
sorted is). -/
def sortRoutesDesc (l : List Route) : List Route :=
  l.insertionSort routeDescLe

/-- Source: _get_routes_interface_name_index. -/
def _get_routes_interface_name_index (rs : List Route) : List (String × List Route) :=
  let grouped :=
    rs.foldl (fun acc r => aset acc r.ifname ((alookup acc r.ifname).getD [] ++ [r])) []
  grouped.map (fun p => (p.1, sortRoutesDesc p.2))

/-- Source: _create_interface_context. -/
def _create_interface_context (s : Snapshot) : Context :=
  { hostname := s.hostname
    personality := s.personality
    subfunctions := s.subfunctions
    ports := s.ports
    interfaces := s.interfaces
    addresses := _get_address_interface_name_index s.rawAddresses
    routes := _get_routes_interface_name_index s.rawRoutes
    networks := s.networks
    gateways := s.gateways
    floatingips := s.floatingips }

/-- Source: _find_bmc_lower_interface (return the first pxeboot-typed
interface, else the last mgmt-typed one seen). -/
def _find_bmc_lower_interface_aux :
    List (String × Interface) → Option Interface → Option Interface
  | [], selected => selected
  | (_, iface) :: t, selected =>
    if get_primary_network_type iface = some NETWORK_TYPE_PXEBOOT then some iface
    else if get_primary_network_type iface = some NETWORK_TYPE_MGMT then
      _find_bmc_lower_interface_aux t (some iface)
    else
      _find_bmc_lower_interface_aux t selected

def _find_bmc_lower_interface (ctx : Context) : Option Interface :=
  _find_bmc_lower_interface_aux ctx.interfaces none

/-- Source: _create_bmc_interface.  The BMC network row and host BMC address
come from the snapshot; the source line lower_iface used_by = bmc0 is the
overwriting assignment kept verbatim. -/
def _create_bmc_interface (s : Snapshot) (ctx : Context) : Context :=
  match s.bmNetwork with
  | none => ctx
  | some network =>
    match _find_bmc_lower_interface ctx with
    | none => ctx
    | some lower_iface =>
      match s.bmcAddress with
      | none => ctx
      | some addr =>
        let iface : Interface :=
          { id := 0
            ifname := "bmc0"
            iftype := INTERFACE_TYPE_VLAN
            networktype := some NETWORK_TYPE_BM
            auxtypes := []
            imtu := network.mtu
            vlan_id := network.vlan_id
            aemode := ""
            txhashpolicy := ""
            imac := ""
            sriov_numvfs := 0
            uses := [lower_iface.ifname]
            used_by := [] }
        let lower_updated := { lower_iface with used_by := ["bmc0"] }
        let address : Address :=
          { ifname := iface.ifname
            family := addr.family
            prefixLen := addr.prefixLen
            address := addr.address
            networktype := iface.networktype }
        { ctx with
            interfaces :=
              aset (aset ctx.interfaces lower_iface.ifname lower_updated) iface.ifname iface
            addresses := aset ctx.addresses iface.ifname [address] }

/-- Source: find_interface_by_type. -/
def find_interface_by_type (ctx : Context) (networktype : String) : Option Interface :=
  (ctx.interfaces.find? (fun p => get_primary_network_type p.2 = some networktype)).map
    (fun p => p.2)

/-- Source: interface_sort_key. -/
def interface_sort_key (iface : Interface) : Nat × String :=
  if iface.iftype = INTERFACE_TYPE_ETHERNET then (0, iface.ifname)
  else if iface.iftype = INTERFACE_TYPE_AE then (1, iface.ifname)
  else (2, iface.ifname)

/-- Lexicographic order on sort keys (python tuple comparison). -/
def interface_sort_le (a b : Interface) : Prop :=
  (interface_sort_key a).1 < (interface_sort_key b).1 ∨
    ((interface_sort_key a).1 = (interface_sort_key b).1 ∧
      (interface_sort_key a).2 ≤ (interface_sort_key b).2)

instance : DecidableRel interface_sort_le := fun a b => by
  unfold interface_sort_le; infer_instance

/-- Source: format_network_config (drop the ifname key). -/
def format_network_config (config : NetCfg) : NetCfg :=
  aerase config "ifname"

/-- Source: generate_network_config. -/
def generate_network_config (ctx : Context) (fuel : Nat) (config : HostConfig)
    (iface : Interface) : Except String HostConfig := do
  let network_config ← get_interface_network_config ctx fuel iface
  let nm := cfgGetStr network_config "ifname"
  let config :=
    { config with
        network_config := aset config.network_config nm (format_network_config network_config) }
  let config ←
    if is_bridged_interface ctx fuel iface then do
      let pair ← get_bridged_network_config ctx fuel iface
      let avp_config := pair.1
      let bridge_config := pair.2
      pure { config with
          network_config :=
            aset
              (aset config.network_config (cfgGetStr avp_config "ifname")
                (format_network_config avp_config))
              (cfgGetStr bridge_config "ifname") (format_network_config bridge_config) }
    else
      pure config
  let config :=
    (get_interface_routes ctx iface).foldl
      (fun cfg route =>
        let route_config := get_route_config route nm
        { cfg with route_config := aset cfg.route_config route_config.name route_config })
      config
  return config

/-- Source: generate_interface_configs. -/
def generate_interface_configs (ctx : Context) (fuel : Nat) (config : HostConfig) :
    Except String HostConfig :=
  ((ctx.interfaces.map (fun p => p.2)).insertionSort interface_sort_le).foldlM
    (fun cfg iface =>
      if needs_interface_config ctx fuel iface then generate_network_config ctx fuel cfg iface
      else pure cfg)
    config

/-- Source: get_address_config. -/
def get_address_config (ctx : Context) (fuel : Nat) (iface : Interface) (address : String) :
    String × String :=
  (get_interface_os_ifname ctx fuel iface, address)

/-- Source: generate_address_configs. -/
def generate_address_configs (ctx : Context) (fuel : Nat) (config : HostConfig) : HostConfig :=
  ctx.floatingips.foldl
    (fun cfg p =>
      let networktype := p.1
      let address := p.2
      match find_interface_by_type ctx networktype with
      | some iface =>
        { cfg with
            address_config :=
              aset cfg.address_config networktype (get_address_config ctx fuel iface address) }
      | none =>
        if networktype = NETWORK_TYPE_PXEBOOT then
          match find_interface_by_type ctx NETWORK_TYPE_MGMT with
          | some iface =>
            { cfg with
                address_config :=
                  aset cfg.address_config networktype
                    (get_address_config ctx fuel iface address) }
          | none => cfg
        else cfg)
    config

/-- Source: find_sriov_interfaces_by_driver. -/
def find_sriov_interfaces_by_driver (ctx : Context) (driver : String) : List Interface :=
  ctx.interfaces.filterMap (fun p =>
    if p.2.iftype ≠ INTERFACE_TYPE_ETHERNET then none
    else
      match get_interface_port ctx p.2 with
      | some port =>
        if port.driver = driver ∧ get_primary_network_type p.2 = some NETWORK_TYPE_PCI_SRIOV
        then some p.2
        else none
      | none => none)

/-- Python substring containment test (the in operator on strings). -/
def strContains (hay pat : String) : Bool :=
  (hay.splitOn pat).length > 1

/-- Source: build_mlx4_num_vfs_options. -/
def build_mlx4_num_vfs_options (ctx : Context) : String :=
  let ifaces := find_sriov_interfaces_by_driver ctx DRIVER_MLX_CX3
  ifaces.foldl
    (fun num_vfs_options iface =>
      match get_interface_port ctx iface with
      | some port =>
        if strContains num_vfs_options port.pciaddr then num_vfs_options
        else if num_vfs_options = "" then
          port.pciaddr ++ "-" ++ toString iface.sriov_numvfs ++ ";0;0"
        else
          num_vfs_options ++ "," ++ port.pciaddr ++ "-" ++ toString iface.sriov_numvfs ++ ";0;0"
      | none => num_vfs_options)
    ""

/-- Source: generate_mlx4_core_options. -/
def generate_mlx4_core_options (ctx : Context) (config : HostConfig) : HostConfig :=
  let num_vfs_options := build_mlx4_num_vfs_options ctx
  if num_vfs_options = "" then config
  else
    { config with
        extra :=
          aset config.extra "platform::networking::mlx4_core_options"
            ("port_type_array=2,2 num_vfs=" ++ num_vfs_options) }

/-- Source: generate_driver_config. -/
def generate_driver_config (ctx : Context) (config : HostConfig) : HostConfig :=
  if is_compute_subfunction ctx then generate_mlx4_core_options ctx config else config

/-- Modelled from the spec: utils.get_dhcp_cid is not under src; the spec
says the client identifier is built from hostname, network type and the
interface MAC address. -/
def get_dhcp_cid (hostname networktype mac : String) : String :=
  hostname ++ ":" ++ networktype ++ ":" ++ mac

/-- Source: generate_dhcp_config. -/
def generate_dhcp_config (ctx : Context) (config : HostConfig) : HostConfig :=
  if ¬ is_controller ctx then
    match find_interface_by_type ctx NETWORK_TYPE_INFRA with
    | some infra_interface =>
      { config with
          extra :=
            aset config.extra "platform::dhclient::params::infra_client_id"
              (get_dhcp_cid ctx.hostname NETWORK_TYPE_INFRA infra_interface.imac) }
    | none => config
  else config

/-- Source: generate_loopback_config. -/
def generate_loopback_config (config : HostConfig) : HostConfig :=
  let network_config :=
    get_basic_network_config LOOPBACK_IFNAME "present" LOOPBACK_METHOD "true" "false" "inet" none
  { config with
      network_config :=
        aset config.network_config LOOPBACK_IFNAME (format_network_config network_config) }

def SYSTEM_MODE_SIMPLEX : String := "simplex"
def DISTRIBUTED_CLOUD_ROLE_SUBCLOUD : String := "subcloud"

/-- Fuel bound used by one resolution pass: the interface index size plus
one extra interface for the synthetic BMC entry, plus one. -/
def ifaceFuel (ctx : Context) : Nat :=
  ctx.interfaces.length + 2

/-- Source: InterfacePuppet.get_host_config. -/
def get_host_config (s : Snapshot) : Except String HostConfig := do
  let ctx := _create_interface_context s
  let ctx :=
    if s.personality = PERSONALITY_CONTROLLER then _create_bmc_interface s ctx else ctx
  let config : HostConfig := { network_config := [], route_config := [], address_config := [], extra := [] }
  let config :=
    if s.system_mode ≠ SYSTEM_MODE_SIMPLEX ∨
        s.distributed_cloud_role = DISTRIBUTED_CLOUD_ROLE_SUBCLOUD then
      generate_loopback_config config
    else config
  let fuel := ifaceFuel ctx
  let config ← generate_interface_configs ctx fuel config
  let config := generate_address_configs ctx fuel config
  let config := generate_driver_config ctx config
  let config := generate_dhcp_config ctx config
  return config

/-! Spec-side definitions for refinement checks, reachability over the
used_by graph, and concrete fixtures used by counterexamples and
witnesses. -/

instance {e a : Type} [DecidableEq e] [DecidableEq a] : DecidableEq (Except e a) :=
  fun x y =>
    match x, y with
    | Except.ok v, Except.ok w =>
      if h : v = w then isTrue (by rw [h]) else isFalse (by intro he; cases he; exact h rfl)
    | Except.error v, Except.error w =>
      if h : v = w then isTrue (by rw [h]) else isFalse (by intro he; cases he; exact h rfl)
    | Except.ok _, Except.error _ => isFalse (by intro he; cases he)
    | Except.error _, Except.ok _ => isFalse (by intro he; cases he)

/-- Modelled from the spec: the section 4.3 address-method decision table,
stated independently of the source function, for refinement comparison. -/
def spec_address_method (isCtrl : Bool) (networktype : Option String) : String :=
  match networktype with
  | none => "manual"
  | some t =>
    if t = NETWORK_TYPE_DATA then "manual"
    else if t = NETWORK_TYPE_CONTROL then "static"
    else if t = NETWORK_TYPE_DATA_VRS then "static"
    else if t = NETWORK_TYPE_BM then "static"
    else if t = NETWORK_TYPE_PCI_SRIOV ∨ t = NETWORK_TYPE_PCI_PASSTHROUGH then "manual"
    else if isCtrl then "static"
    else if t = NETWORK_TYPE_PXEBOOT then "manual"
    else "dhcp"

/-- Upward reachability through used_by edges, counting the number of
edges taken: UpReachN ctx n i j holds when j is reached from i through n
used_by edges resolved in the interface index. -/
inductive UpReachN (ctx : Context) : Nat → Interface → Interface → Prop where
  | refl (i : Interface) : UpReachN ctx 0 i i
  | step (i m j : Interface) (un : String) (n : Nat)
      (hmem : un ∈ i.used_by) (hlook : alookup ctx.interfaces un = some m)
      (htail : UpReachN ctx n m j) : UpReachN ctx (n + 1) i j

/-- Decides whether uses and used_by are mutual transposes over an
interface index. -/
def transpose_consistent (ifs : List (String × Interface)) : Bool :=
  ifs.all (fun p => ifs.all (fun q =>
    decide ((q.1 ∈ p.2.uses) ↔ (p.1 ∈ q.2.used_by))))

/-- Interface record with every field at its neutral value. -/
def blankInterface : Interface :=
  { id := 0
    ifname := ""
    iftype := ""
    networktype := none
    auxtypes := []
    imtu := 0
    vlan_id := 0
    aemode := ""
    txhashpolicy := ""
    imac := ""
    sriov_numvfs := 0
    uses := []
    used_by := [] }

/-- Network config of an interface, or the empty record when generation
fails; lets conclusions avoid an existential over the ok payload. -/
def netcfgOrEmpty (ctx : Context) (fuel : Nat) (iface : Interface) : NetCfg :=
  match get_interface_network_config ctx fuel iface with
  | Except.ok c => c
  | Except.error _ => []

/-- Host config payload of a resolution result, or the empty record. -/
def exceptHCget (e : Except String HostConfig) : HostConfig :=
  match e with
  | Except.ok c => c
  | Except.error _ => { network_config := [], route_config := [], address_config := [], extra := [] }

/-- Fixture: an SR-IOV ethernet interface that also carries the data
network type, on a DPDK-capable non-Mellanox port. -/
def exPort1 : Port :=
  { name := "enp0s3", driver := "ixgbe", dpdksupport := true, pciaddr := "0000:00:03.0" }

def exIface1 : Interface :=
  { blankInterface with
      id := 1
      ifname := "sriov0"
      iftype := INTERFACE_TYPE_ETHERNET
      networktype := some NETWORK_TYPE_PCI_SRIOV
      auxtypes := [NETWORK_TYPE_DATA] }

def exCtx1 : Context :=
  { hostname := "compute-0"
    personality := PERSONALITY_COMPUTE
    subfunctions := [PERSONALITY_COMPUTE]
    ports := [(1, exPort1)]
    interfaces := [("sriov0", exIface1)]
    addresses := []
    routes := []
    networks := []
    gateways := []
    floatingips := [] }

/-- Fixture: an interface whose primary type is mgmt and whose auxiliary
type list carries data, with no upper interfaces. -/
def exIface2 : Interface :=
  { blankInterface with
      ifname := "ethA"
      iftype := INTERFACE_TYPE_ETHERNET
      networktype := some NETWORK_TYPE_MGMT
      auxtypes := [NETWORK_TYPE_DATA] }

def exCtx2 : Context :=
  { hostname := "compute-0"
    personality := PERSONALITY_COMPUTE
    subfunctions := []
    ports := []
    interfaces := [("ethA", exIface2)]
    addresses := []
    routes := []
    networks := []
    gateways := []
    floatingips := [] }

/-- Fixture: an ethernet interface with a data-typed vlan above it. -/
def exIface2low : Interface :=
  { blankInterface with
      ifname := "ethB"
      iftype := INTERFACE_TYPE_ETHERNET
      used_by := ["dataV"] }

def exIface2up : Interface :=
  { blankInterface with
      ifname := "dataV"
      iftype := INTERFACE_TYPE_VLAN
      networktype := some NETWORK_TYPE_DATA
      uses := ["ethB"] }

def exCtx2w : Context :=
  { hostname := "compute-0"
    personality := PERSONALITY_COMPUTE
    subfunctions := []
    ports := []
    interfaces := [("ethB", exIface2low), ("dataV", exIface2up)]
    addresses := []
    routes := []
    networks := []
    gateways := []
    floatingips := [] }

/-- Fixture: a controller whose pxeboot interface already carries a mgmt
vlan in its used_by list when the synthetic BMC interface is injected. -/
def exEth3 : Interface :=
  { blankInterface with
      ifname := "eth0"
      iftype := INTERFACE_TYPE_ETHERNET
      networktype := some NETWORK_TYPE_PXEBOOT
      used_by := ["mgmt0"] }

def exMgmt3 : Interface :=
  { blankInterface with
      ifname := "mgmt0"
      iftype := INTERFACE_TYPE_VLAN
      networktype := some NETWORK_TYPE_MGMT
      uses := ["eth0"]
      vlan_id := 10 }

def exSnap3 : Snapshot :=
  { hostname := "controller-0"
    personality := PERSONALITY_CONTROLLER
    subfunctions := []
    ports := []
    interfaces := [("eth0", exEth3), ("mgmt0", exMgmt3)]
    rawAddresses := []
    rawRoutes := []
    networks := []
    gateways := []
    floatingips := []
    system_mode := "duplex"
    distributed_cloud_role := ""
    bmNetwork := some { ntype := NETWORK_TYPE_BM, mtu := 1500, vlan_id := 99, link_capacity := 0 }
    bmcAddress := some { ifname := "controller-0", family := 4, prefixLen := 24, address := "10.0.0.5", networktype := some NETWORK_TYPE_BM } }

def exCtx3 : Context := _create_interface_context exSnap3

def exCtx3after : Context := _create_bmc_interface exSnap3 exCtx3

/-- Fixture: a controller with an address-less control interface and an
address-less mgmt interface. -/
def exPort7 : Port :=
  { name := "eth7", driver := "e1000", dpdksupport := false, pciaddr := "0000:00:07.0" }

def exPort8 : Port :=
  { name := "eth8", driver := "e1000", dpdksupport := false, pciaddr := "0000:00:08.0" }

def exIfCtl : Interface :=
  { blankInterface with
      id := 7
      ifname := "ctl0"
      iftype := INTERFACE_TYPE_ETHERNET
      networktype := some NETWORK_TYPE_CONTROL
      imtu := 1500 }

def exIfMgmt : Interface :=
  { blankInterface with
      id := 8
      ifname := "mgmt0"
      iftype := INTERFACE_TYPE_ETHERNET
      networktype := some NETWORK_TYPE_MGMT
      imtu := 1500 }

def exCtx5 : Context :=
  { hostname := "controller-0"
    personality := PERSONALITY_CONTROLLER
    subfunctions := []
    ports := [(7, exPort7), (8, exPort8)]
    interfaces := [("ctl0", exIfCtl), ("mgmt0", exIfMgmt)]
    addresses := []
    routes := []
    networks := []
    gateways := []
    floatingips := [] }

/-- Fixture: an 802.3ad bond with layer2 hash policy. -/
def exIfBond : Interface :=
  { blankInterface with
      ifname := "bond0"
      iftype := INTERFACE_TYPE_AE
      aemode := "802.3ad"
      txhashpolicy := "layer2"
      imac := "aa:bb:cc:dd:ee:ff" }

/-- Fixture: a vlan stacked on a bond stacked on an ethernet interface. -/
def exPort70 : Port :=
  { name := "enp0s7", driver := "e1000", dpdksupport := false, pciaddr := "0000:00:70.0" }

def exIfEth7 : Interface :=
  { blankInterface with
      id := 70
      ifname := "eth70"
      iftype := INTERFACE_TYPE_ETHERNET
      used_by := ["bond7"] }

def exIfBond7 : Interface :=
  { blankInterface with
      ifname := "bond7"
      iftype := INTERFACE_TYPE_AE
      uses := ["eth70"]
      used_by := ["vlan107"] }

def exIfVlan7 : Interface :=
  { blankInterface with
      ifname := "vlan107"
      iftype := INTERFACE_TYPE_VLAN
      networktype := some NETWORK_TYPE_MGMT
      uses := ["bond7"]
      vlan_id := 107 }

def exCtx7 : Context :=
  { hostname := "controller-0"
    personality := PERSONALITY_CONTROLLER
    subfunctions := []
    ports := [(70, exPort70)]
    interfaces := [("eth70", exIfEth7), ("bond7", exIfBond7), ("vlan107", exIfVlan7)]
    addresses := []
    routes := []
    networks := []
    gateways := []
    floatingips := [] }

/-- Fixture routes: a default route and a specific one. -/
def exRoute0 : Route :=
  { ifname := "mgmt0", network := "0.0.0.0", prefixLen := 0, gateway := "10.0.0.1", metric := 1 }

def exRoute1 : Route :=
  { ifname := "mgmt0"
    network := "192.168.1.0"
    prefixLen := 24
    gateway := "10.0.0.1"
    metric := 5 }

/-- Fixture: a minimal snapshot (no interfaces) whose resolution emits just
the loopback record. -/
def exSnapMin : Snapshot :=
  { hostname := "compute-1"
    personality := PERSONALITY_COMPUTE
    subfunctions := []
    ports := []
    interfaces := []
    rawAddresses := []
    rawRoutes := []
    networks := []
    gateways := []
    floatingips := []
    system_mode := "duplex"
    distributed_cloud_role := ""
    bmNetwork := none
    bmcAddress := none }

/-! Generic lemmas about the dictionary model, followed by the claim theorems. -/

theorem alookup_aset {κ α : Type} [DecidableEq κ] (l : List (κ × α)) (k k2 : κ) (v : α) :
    alookup (aset l k v) k2 = if k = k2 then some v else alookup l k2 := by
  induction l with
  | nil =>
    by_cases h : k = k2 <;> simp [aset, alookup, h]
  | cons p t ih =>
    obtain ⟨k0, v0⟩ := p
    by_cases h0 : k0 = k
    · subst h0
      by_cases h : k0 = k2 <;> simp [aset, alookup, h]
    · by_cases h : k0 = k2
      · subst h
        have hk : ¬ k = k0 := fun he => h0 he.symm
        simp [aset, alookup, h0, hk, ih]
      · simp [aset, alookup, h0, h, ih]

theorem alookup_aerase {κ α : Type} [DecidableEq κ] (l : List (κ × α)) (k k2 : κ) :
    alookup (aerase l k) k2 = if k = k2 then none else alookup l k2 := by
  induction l with
  | nil => by_cases h : k = k2 <;> simp [aerase, alookup, h]
  | cons p t ih =>
    obtain ⟨k0, v0⟩ := p
    by_cases h0 : k0 = k
    · subst h0
      by_cases h : k0 = k2
      · subst h
        simp [aerase, List.filter] at ih ⊢
        simp [ih]
      · simp [aerase, List.filter] at ih ⊢
        simp [alookup, h, ih]
    · by_cases h : k0 = k2
      · subst h
        have hk : ¬ k = k0 := fun he => h0 he.symm
        simp [aerase, List.filter, h0] at ih ⊢
        simp [alookup, hk, ih]
      · simp [aerase, List.filter, h0] at ih ⊢
        simp [alookup, h, ih]

theorem cfgLookup_cfgUpdateOpts (c : NetCfg) (new : List (String × String)) (k : String)
    (h : ¬ ("options" = k)) :
    cfgLookup (cfgUpdateOpts c new) k = cfgLookup c k := by
  simp [cfgUpdateOpts, cfgSet, cfgLookup, alookup_aset, h]

theorem cfgLookup_updateOpts_ip (c : NetCfg) (new : List (String × String)) :
    cfgLookup (cfgUpdateOpts c new) "ipaddress" = cfgLookup c "ipaddress" :=
  cfgLookup_cfgUpdateOpts c new "ipaddress" (by decide)

theorem cfgLookup_updateOpts_netmask (c : NetCfg) (new : List (String × String)) :
    cfgLookup (cfgUpdateOpts c new) "netmask" = cfgLookup c "netmask" :=
  cfgLookup_cfgUpdateOpts c new "netmask" (by decide)

theorem cfgOpts_cfgUpdateOpts (c : NetCfg) (new : List (String × String)) :
    cfgOpts (cfgUpdateOpts c new) = optsUpdate (cfgOpts c) new := by
  simp [cfgOpts, cfgUpdateOpts, cfgSet, cfgLookup, alookup_aset]

theorem basic_no_addr_fields (nm e m ob hp fam : String) (mtu : Option Nat) :
    cfgLookup (get_basic_network_config nm e m ob hp fam mtu) "ipaddress" = none ∧
    cfgLookup (get_basic_network_config nm e m ob hp fam mtu) "netmask" = none := by
  cases mtu with
  | none => constructor <;> simp [get_basic_network_config, cfgLookup, alookup]
  | some mv =>
    by_cases hm : mv = 0
    · constructor <;> simp [get_basic_network_config, hm, cfgLookup, alookup]
    · constructor <;>
        simp [get_basic_network_config, hm, cfgSet, cfgLookup, alookup, alookup_aset]

theorem mem_aset {κ α : Type} [DecidableEq κ] (l : List (κ × α)) (k : κ) (v : α)
    (p : κ × α) (hp : p ∈ aset l k v) : p ∈ l ∨ p = (k, v) := by
  induction l with
  | nil => simp [aset] at hp; simp [hp]
  | cons q t ih =>
    by_cases h0 : q.1 = k
    · rw [show (q :: t : List (κ × α)) = (q.1, q.2) :: t by simp, aset] at hp
      simp only [if_pos h0] at hp
      cases hp with
      | head => right; rfl
      | tail _ hmem => left; exact List.mem_cons_of_mem _ hmem
    · rw [show (q :: t : List (κ × α)) = (q.1, q.2) :: t by simp, aset] at hp
      simp only [if_neg h0] at hp
      cases hp with
      | head => left; simp
      | tail _ hmem =>
        cases ih hmem with
        | inl h => left; exact List.mem_cons_of_mem _ h
        | inr h => right; exact h

/-- Records of the interface-config family never keep their ifname field:
the formatter strips it before insertion. -/
def network_records_no_ifname (cfg : HostConfig) : Prop :=
  ∀ p ∈ cfg.network_config, cfgLookup p.2 "ifname" = none

theorem format_no_ifname (c : NetCfg) :
    cfgLookup (format_network_config c) "ifname" = none := by
  simp [format_network_config, cfgLookup, alookup_aerase]

theorem no_ifname_insert (m : List (String × NetCfg)) (k : String) (c : NetCfg)
    (hm : ∀ p ∈ m, cfgLookup p.2 "ifname" = none)
    (hc : cfgLookup c "ifname" = none) :
    ∀ p ∈ aset m k c, cfgLookup p.2 "ifname" = none := by
  intro p hp
  cases mem_aset m k c p hp with
  | inl h => exact hm p h
  | inr h => rw [h]; exact hc

theorem routes_foldl_preserves (nm : String) (l : List Route) :
    ∀ cfg : HostConfig, network_records_no_ifname cfg →
      network_records_no_ifname (l.foldl (fun cfg route =>
        { cfg with route_config := aset cfg.route_config (get_route_config route nm).name (get_route_config route nm) })
        cfg) := by
  induction l with
  | nil => intro cfg h; exact h
  | cons r t ih =>
    intro cfg h
    simp only [List.foldl]
    exact ih _ (fun p hp => h p hp)

theorem except_bind_ok {ε α β : Type} (x : Except ε α) (f : α → Except ε β) (b : β)
    (h : (x >>= f) = Except.ok b) : ∃ a, x = Except.ok a ∧ f a = Except.ok b := by
  cases x with
  | error e => simp [Bind.bind, Except.bind] at h
  | ok a =>
    refine ⟨a, rfl, ?_⟩
    simpa [Bind.bind, Except.bind] using h

theorem gnc_preserves (ctx : Context) (fuel : Nat) (cfg cfg' : HostConfig) (iface : Interface)
    (h : generate_network_config ctx fuel cfg iface = Except.ok cfg')
    (hP : network_records_no_ifname cfg) : network_records_no_ifname cfg' := by
  unfold generate_network_config at h
  cases hnc : get_interface_network_config ctx fuel iface with
  | error e => rw [hnc] at h; simp [Bind.bind, Except.bind] at h
  | ok nc =>
    rw [hnc] at h
    simp only [Bind.bind, Except.bind] at h
    by_cases hbr : is_bridged_interface ctx fuel iface
    · rw [if_pos hbr] at h
      cases hbp : get_bridged_network_config ctx fuel iface with
      | error e => rw [hbp] at h; simp [Except.bind] at h
      | ok pair =>
        rw [hbp] at h
        simp only [Except.bind, pure, Except.pure, Except.ok.injEq] at h
        rw [← h]
        refine routes_foldl_preserves _ _ _ ?_
        intro p hp
        refine no_ifname_insert _ _ _ ?_ (format_no_ifname _) p hp
        refine no_ifname_insert _ _ _ ?_ (format_no_ifname _)
        exact no_ifname_insert _ _ _ hP (format_no_ifname _)
    · rw [if_neg hbr] at h
      simp only [Except.bind, pure, Except.pure, Except.ok.injEq] at h
      rw [← h]
      refine routes_foldl_preserves _ _ _ ?_
      intro p hp
      exact no_ifname_insert _ _ _ hP (format_no_ifname _) p hp

theorem gic_preserves (ctx : Context) (fuel : Nat) :
    ∀ (l : List Interface) (cfg cfg' : HostConfig),
      l.foldlM (fun cfg iface =>
        if needs_interface_config ctx fuel iface then
          generate_network_config ctx fuel cfg iface
        else pure cfg) cfg = Except.ok cfg' →
      network_records_no_ifname cfg → network_records_no_ifname cfg' := by
  intro l
  induction l with
  | nil =>
    intro cfg cfg' h hP
    simp only [List.foldlM, pure, Except.pure, Except.ok.injEq] at h
    rw [← h]; exact hP
  | cons a t ih =>
    intro cfg cfg' h hP
    simp only [List.foldlM] at h
    by_cases hneeds : needs_interface_config ctx fuel a
    · rw [if_pos hneeds] at h
      obtain ⟨c1, hstep, h⟩ := except_bind_ok _ _ _ h
      exact ih c1 cfg' h (gnc_preserves ctx fuel cfg c1 a hstep hP)
    · rw [if_neg hneeds] at h
      obtain ⟨c1, hstep, h⟩ := except_bind_ok _ _ _ h
      simp only [pure, Except.pure, Except.ok.injEq] at hstep
      rw [← hstep] at h
      exact ih cfg cfg' h hP

theorem gac_network (ctx : Context) (fuel : Nat) (cfg : HostConfig) :
    (generate_address_configs ctx fuel cfg).network_config = cfg.network_config := by
  unfold generate_address_configs
  generalize ctx.floatingips = l
  induction l generalizing cfg with
  | nil => rfl
  | cons p t ih =>
    simp only [List.foldl]
    rw [ih]
    cases hfind : find_interface_by_type ctx p.1 with
    | some iface => simp
    | none =>
      by_cases hpx : p.1 = NETWORK_TYPE_PXEBOOT
      · simp only [hpx, if_pos rfl]
        cases hfind2 : find_interface_by_type ctx NETWORK_TYPE_MGMT <;> simp
      · simp [hpx]

theorem gdc_network (ctx : Context) (cfg : HostConfig) :
    (generate_driver_config ctx cfg).network_config = cfg.network_config := by
  unfold generate_driver_config generate_mlx4_core_options
  by_cases hc : is_compute_subfunction ctx
  · simp only [hc, if_pos rfl]
    by_cases hn : build_mlx4_num_vfs_options ctx = ""
    · simp [hn]
    · simp [hn]
  · simp [hc]

theorem dhcp_network (ctx : Context) (cfg : HostConfig) :
    (generate_dhcp_config ctx cfg).network_config = cfg.network_config := by
  unfold generate_dhcp_config
  by_cases hc : is_controller ctx
  · simp [hc]
  · simp only [hc]
    cases hfind : find_interface_by_type ctx NETWORK_TYPE_INFRA <;> simp

theorem loopback_preserves (cfg : HostConfig) (hP : network_records_no_ifname cfg) :
    network_records_no_ifname (generate_loopback_config cfg) := by
  intro p hp
  exact no_ifname_insert _ _ _ hP (format_no_ifname _) p hp

theorem no_ifname_of_network_eq (c1 c2 : HostConfig)
    (he : c1.network_config = c2.network_config)
    (h : network_records_no_ifname c2) : network_records_no_ifname c1 := by
  intro p hp
  exact h p (he ▸ hp)

/-! Claim theorems. -/

/-- C1 counterexample: an interface that is simultaneously a data interface
and a PCI interface, on a DPDK-capable non-Mellanox port of a compute host,
gets needs_interface_config = false although the claimed disjunction
(data and not dpdk) or (data and mellanox) or pci evaluates to true. -/
theorem c1_counterexample :
    is_platform_interface exCtx1 5 exIface1 = false ∧
    is_compute_subfunction exCtx1 = true ∧
    needs_interface_config exCtx1 5 exIface1 ≠
      ((is_data_interface exCtx1 5 exIface1 && !is_dpdk_compatible exCtx1 exIface1) ||
        (is_data_interface exCtx1 5 exIface1 && is_a_mellanox_device exCtx1 exIface1) ||
        is_pci_interface exIface1) := by
  decide

/-- C1 (amended): needs_interface_config is true if the interface is a
platform interface; else false when the host has no compute role; else,
when the interface is a data interface, true exactly when it is not
DPDK-compatible or is a Mellanox device; and only when it is not a data
interface, true exactly when it is a PCI interface.  The PCI test is never
consulted for a data interface. -/
theorem c1_needs_interface_config_amended (ctx : Context) (fuel : Nat) (iface : Interface) :
    needs_interface_config ctx fuel iface =
      (is_platform_interface ctx fuel iface ||
        (is_compute_subfunction ctx &&
          (if is_data_interface ctx fuel iface then
            (!is_dpdk_compatible ctx iface || is_a_mellanox_device ctx iface)
          else is_pci_interface iface))) := by
  cases hp : is_platform_interface ctx fuel iface <;>
  cases hc : is_compute_subfunction ctx <;>
  cases hd : is_data_interface ctx fuel iface <;>
  cases hk : is_dpdk_compatible ctx iface <;>
  cases hm : is_a_mellanox_device ctx iface <;>
  cases hq : is_pci_interface iface <;>
  simp [needs_interface_config, hp, hc, hd, hk, hm, hq]

/-- C2 counterexample: an interface whose primary network type is mgmt, not
data, carrying data only among its auxiliary network types and with no
upper interfaces, is nevertheless classified as a data interface. -/
theorem c2_counterexample :
    get_primary_network_type exIface2 ≠ some NETWORK_TYPE_DATA ∧
    exIface2.used_by = [] ∧
    NETWORK_TYPE_DATA ∈ exIface2.auxtypes ∧
    is_data_interface exCtx2 5 exIface2 = true := by
  decide

/-- C2 (amended): is_data_interface is true exactly when some interface
reachable upward through used_by edges, the interface itself included,
carries the data network type anywhere in its network type list (primary
or auxiliary); an interface with data only among auxiliary types is a data
interface. -/
theorem c2_is_data_interface_amended (ctx : Context) :
    ∀ (fuel : Nat) (iface : Interface),
      (is_data_interface ctx fuel iface = true →
        ∃ (n : Nat) (j : Interface), UpReachN ctx n iface j ∧ is_data_network_type j = true) ∧
      (∀ (n : Nat) (j : Interface), UpReachN ctx n iface j →
        is_data_network_type j = true → n < fuel →
        is_data_interface ctx fuel iface = true) := by
  intro fuel
  induction fuel with
  | zero =>
    intro iface
    constructor
    · intro h
      simp [is_data_interface] at h
    · intro n j _ _ hn
      exact absurd hn (Nat.not_lt_zero n)
  | succ fuel ih =>
    intro iface
    constructor
    · intro h
      cases hd : is_data_network_type iface with
      | true => exact ⟨0, iface, UpReachN.refl iface, hd⟩
      | false =>
        simp only [is_data_interface, hd, Bool.false_eq_true, if_false] at h
        rw [List.any_eq_true] at h
        obtain ⟨un, hmem, hfn⟩ := h
        cases hlo : alookup ctx.interfaces un with
        | none =>
          rw [hlo] at hfn
          simp at hfn
        | some m =>
          rw [hlo] at hfn
          obtain ⟨n, j, hr, hj⟩ := (ih m).1 hfn
          exact ⟨n + 1, j, UpReachN.step iface m j un n hmem hlo hr, hj⟩
    · intro n j hreach hj hn
      cases hreach with
      | refl =>
        simp [is_data_interface, hj]
      | step _ m _ un n' hmem hlo htail =>
        have hm : is_data_interface ctx fuel m = true :=
          (ih m).2 n' j htail hj (by omega)
        cases hd : is_data_network_type iface with
        | true => simp [is_data_interface, hd]
        | false =>
          simp only [is_data_interface, hd, Bool.false_eq_true, if_false]
          rw [List.any_eq_true]
          refine ⟨un, hmem, ?_⟩
          rw [hlo]
          exact hm

/-- C2 witness: an ethernet interface below a data-typed vlan is a data
interface, through the upward-reachability form of the amended claim. -/
theorem c2_is_data_interface_amended_witness :
    is_data_interface exCtx2w 3 exIface2low = true :=
  (c2_is_data_interface_amended exCtx2w 3 exIface2low).2 1 exIface2up
    (UpReachN.step exIface2low exIface2up exIface2up "dataV" 0 (by decide) (by decide)
      (UpReachN.refl exIface2up))
    (by decide) (by decide)

/-- C3: injecting the synthetic BMC interface overwrites the lower
interface's used_by list with just bmc0, so an upper interface recorded
there beforehand (the mgmt vlan over the pxeboot lower) is dropped and the
used_by relation stops being the transpose of uses, although it was the
transpose before injection. -/
theorem c3_bmc_injection_transpose :
    transpose_consistent exCtx3.interfaces = true ∧
    "mgmt0" ∈ ((alookup exCtx3.interfaces "eth0").getD blankInterface).used_by ∧
    (alookup exCtx3after.interfaces "bmc0").isSome = true ∧
    transpose_consistent exCtx3after.interfaces = false ∧
    "mgmt0" ∉ ((alookup exCtx3after.interfaces "eth0").getD blankInterface).used_by := by
  decide

/-- C4: get_interface_address_method agrees with the ordered decision table
of the spec (no primary type or data: manual; control, data-VRS and BMC:
static; SR-IOV and PCI-passthrough: manual; else static on a controller;
else pxeboot: manual; else dhcp), as a function of the primary network
type and the host role only. -/
theorem c4_address_method_spec (ctx : Context) (iface : Interface) :
    get_interface_address_method ctx iface =
      spec_address_method (is_controller ctx) (get_primary_network_type iface) := by
  unfold get_interface_address_method spec_address_method
  cases h : get_primary_network_type iface with
  | none => rfl
  | some t =>
    simp only [DATA_NETWORK_TYPES, PCI_NETWORK_TYPES, NETWORK_TYPE_DATA,
      NETWORK_TYPE_PCI_SRIOV, NETWORK_TYPE_PCI_PASSTHROUGH, List.contains_cons,
      List.contains_nil, Bool.or_false, beq_iff_eq]
    split_ifs <;> simp_all

/-- C5: for an interface whose address method is static and that has no
primary address, generation succeeds without ipaddress or netmask fields
when the primary network type is control, and fails with the missing
primary address error for every other network type. -/
theorem c5_static_missing_address (ctx : Context) (fuel : Nat) (iface : Interface)
    (hmethod : get_interface_address_method ctx iface = "static")
    (haddr : get_interface_primary_address ctx iface = none) :
    (get_primary_network_type iface = some NETWORK_TYPE_CONTROL →
      get_interface_network_config ctx fuel iface =
        Except.ok (netcfgOrEmpty ctx fuel iface) ∧
      cfgLookup (netcfgOrEmpty ctx fuel iface) "ipaddress" = none ∧
      cfgLookup (netcfgOrEmpty ctx fuel iface) "netmask" = none) ∧
    (get_primary_network_type iface ≠ some NETWORK_TYPE_CONTROL →
      get_interface_network_config ctx fuel iface =
        Except.error ("Interface " ++ iface.ifname ++ " has no primary address")) := by
  constructor
  · intro hctl
    have hexists : ∃ c, get_interface_network_config ctx fuel iface = Except.ok c ∧
        cfgLookup c "ipaddress" = none ∧ cfgLookup c "netmask" = none := by
      have hbasic := basic_no_addr_fields (get_interface_os_ifname ctx fuel iface) "present"
        (get_interface_address_method ctx iface) "true" "false"
        (get_interface_address_family ctx iface) (some (get_interface_mtu iface))
      set c0 := get_basic_network_config (get_interface_os_ifname ctx fuel iface) "present"
        (get_interface_address_method ctx iface) "true" "false"
        (get_interface_address_family ctx iface) (some (get_interface_mtu iface)) with hc0
      have hcommon : ∃ c1, get_common_network_config ctx fuel iface c0 = Except.ok c1 ∧
          cfgLookup c1 "ipaddress" = none ∧ cfgLookup c1 "netmask" = none := by
        cases htc : get_interface_traffic_classifier ctx fuel iface with
        | none =>
          refine ⟨c0, ?_, hbasic.1, hbasic.2⟩
          simp [get_common_network_config, htc, hmethod, haddr, hctl]
        | some tc =>
          refine ⟨cfgUpdateOpts c0 [("post_up", tc)], ?_, ?_, ?_⟩
          · simp [get_common_network_config, htc, hmethod, haddr, hctl]
          · rw [cfgLookup_updateOpts_ip]; exact hbasic.1
          · rw [cfgLookup_updateOpts_netmask]; exact hbasic.2
      obtain ⟨c1, hc1, hip1, hnm1⟩ := hcommon
      by_cases hvlan : iface.iftype = INTERFACE_TYPE_VLAN
      · refine ⟨get_vlan_network_config c1, ?_, ?_, ?_⟩
        · simp [get_interface_network_config, ← hc0, hc1, hvlan, Bind.bind, Except.bind,
            pure, Except.pure]
        · simp only [get_vlan_network_config]
          rw [cfgLookup_updateOpts_ip]; exact hip1
        · simp only [get_vlan_network_config]
          rw [cfgLookup_updateOpts_netmask]; exact hnm1
      · by_cases hae : iface.iftype = INTERFACE_TYPE_AE
        · refine ⟨get_bond_network_config iface c1, ?_, ?_, ?_⟩
          · simp [get_interface_network_config, ← hc0, hc1, hvlan, hae, Bind.bind,
              Except.bind, pure, Except.pure, INTERFACE_TYPE_VLAN, INTERFACE_TYPE_AE]
          · simp only [get_bond_network_config]
            rw [cfgLookup_updateOpts_ip]; exact hip1
          · simp only [get_bond_network_config]
            rw [cfgLookup_updateOpts_netmask]; exact hnm1
        · refine ⟨get_ethernet_network_config ctx fuel iface c1, ?_, ?_, ?_⟩
          · simp [get_interface_network_config, ← hc0, hc1, hvlan, hae, Bind.bind,
              Except.bind, pure, Except.pure]
          · simp only [get_ethernet_network_config]
            rw [cfgLookup_updateOpts_ip]; exact hip1
          · simp only [get_ethernet_network_config]
            rw [cfgLookup_updateOpts_netmask]; exact hnm1
    obtain ⟨c, hc, hip, hnm⟩ := hexists
    have hval : netcfgOrEmpty ctx fuel iface = c := by
      simp [netcfgOrEmpty, hc]
    rw [hval]
    exact ⟨hc, hip, hnm⟩
  · intro hctl
    have hcommon : ∀ c0 : NetCfg, get_common_network_config ctx fuel iface c0 =
        Except.error ("Interface " ++ iface.ifname ++ " has no primary address") := by
      intro c0
      cases htc : get_interface_traffic_classifier ctx fuel iface with
      | none => simp [get_common_network_config, htc, hmethod, haddr, hctl]
      | some tc => simp [get_common_network_config, htc, hmethod, haddr, hctl]
    simp [get_interface_network_config, hcommon, Bind.bind, Except.bind]

/-- C5 witness: on a controller with no assigned addresses, the control
interface generates successfully without ipaddress and netmask fields,
while the mgmt interface aborts generation. -/
theorem c5_static_missing_address_witness :
    (get_interface_network_config exCtx5 4 exIfCtl =
        Except.ok (netcfgOrEmpty exCtx5 4 exIfCtl) ∧
      cfgLookup (netcfgOrEmpty exCtx5 4 exIfCtl) "ipaddress" = none ∧
      cfgLookup (netcfgOrEmpty exCtx5 4 exIfCtl) "netmask" = none) ∧
    get_interface_network_config exCtx5 4 exIfMgmt =
      Except.error "Interface mgmt0 has no primary address" :=
  ⟨(c5_static_missing_address exCtx5 4 exIfCtl (by decide) (by decide)).1 (by decide),
   (c5_static_missing_address exCtx5 4 exIfMgmt (by decide) (by decide)).2 (by decide)⟩

/-- C6: every bond with AE mode 802.3ad and hash policy layer2 gets the
bonding options string mode=802.3ad lacp_rate=fast xmit_hash_policy=layer2
miimon=100 and an up option sleep 10 in its record. -/
theorem c6_bond_lacp_options (iface : Interface) (config : NetCfg)
    (hmode : iface.aemode = "802.3ad") (hpolicy : iface.txhashpolicy = "layer2") :
    alookup (cfgOpts (get_bond_network_config iface config)) "BONDING_OPTS" =
      some "mode=802.3ad lacp_rate=fast xmit_hash_policy=layer2 miimon=100" ∧
    alookup (cfgOpts (get_bond_network_config iface config)) "up" = some "sleep 10" := by
  have hopts : get_bond_interface_options iface =
      "mode=802.3ad lacp_rate=fast xmit_hash_policy=layer2 miimon=100" := by
    simp [get_bond_interface_options, hmode, hpolicy, ACTIVE_STANDBY_AE_MODES,
      BALANCED_AE_MODES, LACP_AE_MODES]
  simp [get_bond_network_config, hopts, cfgOpts_cfgUpdateOpts, optsUpdate, alookup_aset]

/-- C6 witness: the fixture 802.3ad layer2 bond record carries exactly the
claimed bonding options and boot delay. -/
theorem c6_bond_lacp_options_witness :
    alookup (cfgOpts (get_bond_network_config exIfBond (get_basic_network_config "bond0")))
        "BONDING_OPTS" =
      some "mode=802.3ad lacp_rate=fast xmit_hash_policy=layer2 miimon=100" ∧
    alookup (cfgOpts (get_bond_network_config exIfBond (get_basic_network_config "bond0")))
        "up" = some "sleep 10" :=
  c6_bond_lacp_options exIfBond (get_basic_network_config "bond0") (by decide) (by decide)

/-- C7: the OS name of a vlan whose single lower interface is a bond is the
bond's own name followed by a dot and the vlan id, and the recursion
resolves stacked lowers: ethernet interfaces map to the port kernel name,
bonds to their own name, and a vlan to its lower interface's OS name plus
the vlan suffix. -/
theorem c7_os_ifname_recursion (ctx : Context) (fuel : Nat) (iface bond : Interface)
    (hv : iface.iftype = INTERFACE_TYPE_VLAN)
    (huses : iface.uses = [bond.ifname])
    (hlook : alookup ctx.interfaces bond.ifname = some bond)
    (hae : bond.iftype = INTERFACE_TYPE_AE) :
    get_interface_os_ifname ctx (fuel + 2) iface =
      bond.ifname ++ "." ++ toString iface.vlan_id ∧
    (∀ e : Interface, e.iftype = INTERFACE_TYPE_ETHERNET →
      get_interface_os_ifname ctx (fuel + 1) e = get_interface_port_name ctx e) ∧
    (∀ b : Interface, b.iftype = INTERFACE_TYPE_AE →
      get_interface_os_ifname ctx (fuel + 1) b = b.ifname) ∧
    (∀ (v low : Interface) (lowName : String) (rest : List String),
      v.iftype = INTERFACE_TYPE_VLAN → v.uses = lowName :: rest →
      alookup ctx.interfaces lowName = some low →
      get_interface_os_ifname ctx (fuel + 1) v =
        get_interface_os_ifname ctx fuel low ++ "." ++ toString v.vlan_id) := by
  refine ⟨?_, ?_, ?_, ?_⟩
  · simp [get_interface_os_ifname, hv, huses, hlook, hae, INTERFACE_TYPE_VLAN,
      INTERFACE_TYPE_ETHERNET, INTERFACE_TYPE_AE]
  · intro e he
    simp [get_interface_os_ifname, he, INTERFACE_TYPE_ETHERNET]
  · intro b hb
    simp [get_interface_os_ifname, hb, INTERFACE_TYPE_AE, INTERFACE_TYPE_ETHERNET,
      INTERFACE_TYPE_VLAN]
  · intro v low lowName rest hvv husesv hlookv
    simp [get_interface_os_ifname, hvv, husesv, hlookv, INTERFACE_TYPE_VLAN,
      INTERFACE_TYPE_ETHERNET]

/-- C7 witness: the fixture vlan with id 107 over bond7 over eth70 resolves
to bond7.107. -/
theorem c7_os_ifname_recursion_witness :
    get_interface_os_ifname exCtx7 5 exIfVlan7 = "bond7.107" :=
  (c7_os_ifname_recursion exCtx7 3 exIfVlan7 exIfBond7 (by decide) (by decide) (by decide)
    (by decide)).1

/-- C8: each per-interface route list built by the index builder is sorted
by destination prefix length in descending order; a zero-prefix route is
rendered with name default and netmask 0.0.0.0, and a non-zero-prefix
route with name network/prefix and a metric option string. -/
theorem c8_route_order_and_naming :
    (∀ (rs : List Route) (p : String × List Route),
      p ∈ _get_routes_interface_name_index rs →
      p.2.Pairwise (fun a b => b.prefixLen ≤ a.prefixLen)) ∧
    (∀ (route : Route) (ifname : String), route.prefixLen = 0 →
      (get_route_config route ifname).name = "default" ∧
      (get_route_config route ifname).netmask = "0.0.0.0") ∧
    (∀ (route : Route) (ifname : String), route.prefixLen ≠ 0 →
      (get_route_config route ifname).name =
        route.network ++ "/" ++ toString route.prefixLen ∧
      (get_route_config route ifname).options = "metric " ++ toString route.metric) := by
  refine ⟨?_, ?_, ?_⟩
  · intro rs p hp
    simp only [_get_routes_interface_name_index, List.mem_map] at hp
    obtain ⟨q, hq, hpe⟩ := hp
    rw [← hpe]
    exact List.sorted_insertionSort routeDescLe q.2
  · intro route ifname h
    constructor <;> simp [get_route_config, h]
  · intro route ifname h
    constructor <;> simp [get_route_config, h]

/-- C8 witness: the fixture zero-prefix route is named default with netmask
0.0.0.0, and the fixture 24-prefix route is named network/24 with a metric
option. -/
theorem c8_route_order_and_naming_witness :
    (get_route_config exRoute0 "mgmt0").name = "default" ∧
    (get_route_config exRoute0 "mgmt0").netmask = "0.0.0.0" ∧
    (get_route_config exRoute1 "mgmt0").name = "192.168.1.0/24" ∧
    (get_route_config exRoute1 "mgmt0").options = "metric 5" := by
  refine ⟨(c8_route_order_and_naming.2.1 exRoute0 "mgmt0" rfl).1,
    (c8_route_order_and_naming.2.1 exRoute0 "mgmt0" rfl).2, ?_, ?_⟩
  · exact (c8_route_order_and_naming.2.2 exRoute1 "mgmt0" (by decide)).1
  · exact (c8_route_order_and_naming.2.2 exRoute1 "mgmt0" (by decide)).2

/-- C9: resolution is a deterministic function of the topology snapshot:
two calls over identical snapshots return the same result, with equal
records in each of the three resource families. -/
theorem c9_resolution_deterministic (s1 s2 : Snapshot) (h : s1 = s2) :
    get_host_config s1 = get_host_config s2 ∧
    (exceptHCget (get_host_config s1)).network_config =
      (exceptHCget (get_host_config s2)).network_config ∧
    (exceptHCget (get_host_config s1)).route_config =
      (exceptHCget (get_host_config s2)).route_config ∧
    (exceptHCget (get_host_config s1)).address_config =
      (exceptHCget (get_host_config s2)).address_config := by
  subst h
  exact ⟨rfl, rfl, rfl, rfl⟩

/-- C9 witness: resolving the minimal fixture snapshot twice yields the
same resource map. -/
theorem c9_resolution_deterministic_witness :
    get_host_config exSnapMin = get_host_config exSnapMin :=
  (c9_resolution_deterministic exSnapMin exSnapMin rfl).1

/-- C10: every record placed into the interface-config family by a
resolution pass, the loopback, per-interface, avp clone and bridge records
alike, carries no ifname field, since each passes through the formatter
that strips it. -/
theorem c10_network_records_strip_ifname (s : Snapshot) (cfg : HostConfig)
    (h : get_host_config s = Except.ok cfg) :
    ∀ p ∈ cfg.network_config, cfgLookup p.2 "ifname" = none := by
  unfold get_host_config at h
  obtain ⟨c2, hgic, h⟩ := except_bind_ok _ _ _ h
  simp only [pure, Except.pure, Except.ok.injEq] at h
  have hc2 : network_records_no_ifname c2 := by
    refine gic_preserves _ _ _ _ _ hgic ?_
    split
    · exact loopback_preserves _ (by intro p hp; simp at hp)
    · intro p hp; simp at hp
  rw [← h]
  exact no_ifname_of_network_eq _ c2 (by rw [dhcp_network, gdc_network, gac_network]) hc2

/-- C10 witness: the loopback record emitted for the minimal snapshot has
no ifname field. -/
theorem c10_network_records_strip_ifname_witness :
    cfgLookup ((exceptHCget (get_host_config exSnapMin)).network_config.head?.getD
      ("", [])).2 "ifname" = none :=
  c10_network_records_strip_ifname exSnapMin (exceptHCget (get_host_config exSnapMin))
    (by decide) _ (by decide)
